import Mathlib

/-!
Verification of the usage-entitlement reconciliation flow of a
subscription-gated prompt-generation app.

Shallow embedding of:
  * the client hook `useSubscription` (src/src/hooks/useSubscription.ts):
    `fetchSubscriptionData` (in-flight coalescing via `fetchingRef`),
    `incrementUsage`, `getUsagePercentage`;
  * the earlier retry-based variant of the same hook (src/unnamed/part_000):
    `fetchSubscriptionData` with a bounded retry loop and synthetic defaults,
    embedded here as `fetchSubscriptionData0`;
  * the SQL remote procedures of migration
    src/supabase/migrations/20250629135115_throbbing_forest.sql:
    `ensure_user_records_robust`, `can_generate_prompt`,
    `update_usage_from_payment`.

Timestamps are modelled as integers (epoch milliseconds); ISO strings in the
source only wrap such instants.  The SQL interval of one month is modelled as
30 days, matching the client-side default `now + 30 * 24 * 60 * 60 * 1000`.
Remote responses are supplied by oracles so that every network outcome
(success, error object, thrown exception) can be analysed.
-/

/-- Plan tier enumeration, from the `plan_type` column and the TS union type
`'free' | 'monthly' | 'yearly'`. -/
inductive PlanType where
  | free
  | monthly
  | yearly
deriving DecidableEq

/-- Subscription status enumeration, from the `status` column and the TS union
type `'active' | 'canceled' | 'past_due' | 'incomplete' | 'trialing'`. -/
inductive SubStatus where
  | active
  | canceled
  | past_due
  | incomplete
  | trialing
deriving DecidableEq

/-- Client-side subscription record (interface `UserSubscription`,
src/src/hooks/useSubscription.ts lines 5-16).  Timestamp strings are modelled
as integers. -/
structure UserSubscription where
  id : String
  user_id : String
  stripe_customer_id : Option String
  stripe_subscription_id : Option String
  plan_type : PlanType
  status : SubStatus
  current_period_start : Option Int
  current_period_end : Option Int
  created_at : Int
  updated_at : Int
deriving DecidableEq

/-- Client-side usage record (interface `UserUsage`,
src/src/hooks/useSubscription.ts lines 18-26). -/
structure UserUsage where
  id : String
  user_id : String
  prompts_used : Nat
  prompts_limit : Nat
  reset_date : Int
  created_at : Int
  updated_at : Int
deriving DecidableEq

/-- `30 * 24 * 60 * 60 * 1000` milliseconds, the client-side reset horizon
(src/src/hooks/useSubscription.ts line 125). -/
def thirtyDaysMs : Int := 30 * 24 * 60 * 60 * 1000

/-- The synthetic default subscription record built by the hook when the
repository cannot be read (src/src/hooks/useSubscription.ts lines 107-118 and
src/unnamed/part_000 lines 138-150, 179-190). -/
def defaultSubscription (recordId uid : String) (now : Int) : UserSubscription :=
  { id := recordId
    user_id := uid
    stripe_customer_id := none
    stripe_subscription_id := none
    plan_type := .free
    status := .active
    current_period_start := none
    current_period_end := none
    created_at := now
    updated_at := now }

/-- The synthetic default usage record built by the hook when the repository
cannot be read (src/src/hooks/useSubscription.ts lines 120-128 and
src/unnamed/part_000 lines 153-163, 192-200). -/
def defaultUsage (recordId uid : String) (now : Int) : UserUsage :=
  { id := recordId
    user_id := uid
    prompts_used := 0
    prompts_limit := 3
    reset_date := now + thirtyDaysMs
    created_at := now
    updated_at := now }

/-- Outcome of one awaited supabase call as seen by the client: the promise
rejected (`thrown`), it resolved with a non-null `error` field
(`errorResult`), or it resolved with data (`ok`). -/
inductive RpcOutcome (α : Type) where
  | thrown
  | errorResult
  | ok (data : α)
deriving DecidableEq

/-- Local react state of the `useSubscription` hook together with the
`fetchingRef` in-flight flag (src/src/hooks/useSubscription.ts lines 30-34). -/
structure HookState where
  subscription : Option UserSubscription
  usage : Option UserUsage
  loading : Bool
  error : Option String
  fetching : Bool
deriving DecidableEq

/-- The remote calls `fetchSubscriptionData` can issue, for tracing. -/
inductive RemoteCall where
  | rpcEnsureUserSetup
  | selectSubscriptions
  | selectUsage
deriving DecidableEq

/-- Oracle giving the outcome of each remote call of one pass of
`fetchSubscriptionData` (current version).  `.single()` yields an error object
when no row exists, so a missing row is an `errorResult`. -/
structure FetchOracle where
  setup : RpcOutcome Unit
  subscriptionResponse : RpcOutcome UserSubscription
  usageResponse : RpcOutcome UserUsage

/-- Embedding of `fetchSubscriptionData` from src/src/hooks/useSubscription.ts
lines 36-134.  Returns the updated hook state and the list of remote calls
issued.  The two table reads are issued together with `Promise.all`, so both
appear in the trace as soon as the setup RPC has succeeded.  The `catch`
branch installs the synthetic defaults; the `finally` branch clears `loading`
and `fetchingRef`. -/
def fetchSubscriptionData (user : Option String) (o : FetchOracle) (now : Int)
    (s : HookState) : HookState × List RemoteCall :=
  match user with
  | none => ({ s with subscription := none, usage := none, loading := false }, [])
  | some uid =>
    if s.fetching then (s, [])
    else
      let s1 : HookState := { s with fetching := true, loading := true, error := none }
      let caught : List RemoteCall → HookState × List RemoteCall := fun calls =>
        ({ s1 with
            error := some "Failed to load user data"
            subscription := some (defaultSubscription "default" uid now)
            usage := some (defaultUsage "default" uid now)
            loading := false
            fetching := false }, calls)
      match o.setup with
      | .thrown => caught [.rpcEnsureUserSetup]
      | .errorResult => caught [.rpcEnsureUserSetup]
      | .ok _ =>
        let calls : List RemoteCall :=
          [.rpcEnsureUserSetup, .selectSubscriptions, .selectUsage]
        match o.subscriptionResponse with
        | .thrown => caught calls
        | .errorResult => caught calls
        | .ok subRow =>
          match o.usageResponse with
          | .thrown => caught calls
          | .errorResult => caught calls
          | .ok usageRow =>
            ({ s1 with
                subscription := some subRow
                usage := some usageRow
                loading := false
                fetching := false }, calls)

/-- Embedding of `incrementUsage` from src/src/hooks/useSubscription.ts lines
166-200.  The RPC outcome is supplied by an oracle; the function returns the
boolean handed back to the caller together with the (possibly optimistically
updated) local usage record. -/
def incrementUsage (user : Option String) (rpc : RpcOutcome Bool) (now : Int)
    (usage : Option UserUsage) : Bool × Option UserUsage :=
  match user with
  | none => (false, usage)
  | some _ =>
    match rpc with
    | .thrown => (false, usage)
    | .errorResult => (false, usage)
    | .ok data =>
      let usage1 : Option UserUsage :=
        match usage with
        | some u => some { u with prompts_used := u.prompts_used + 1, updated_at := now }
        | none => none
      (data, usage1)

/-- Embedding of `getUsagePercentage` from src/src/hooks/useSubscription.ts
lines 207-210, over exact rationals. -/
def getUsagePercentage (usage : Option UserUsage) : ℚ :=
  match usage with
  | none => 0
  | some u =>
    if u.prompts_limit = 0 then 0
    else min 100 ((u.prompts_used : ℚ) / (u.prompts_limit : ℚ) * 100)

example : getUsagePercentage (some (defaultUsage "d" "u" 0)) = 0 := by
  norm_num [getUsagePercentage, defaultUsage]
example :
    getUsagePercentage (some { defaultUsage "d" "u" 0 with prompts_used := 1, prompts_limit := 2 }) = 50 := by
  norm_num [getUsagePercentage, defaultUsage]

/-! ## Retry-based reconciler variant (src/unnamed/part_000) -/

/-- Outcome of one `.maybeSingle()` read: either the response carried an error
object (`err`), or it resolved with possibly-null data (`ok`). -/
inductive FetchResult (α : Type) where
  | err
  | ok (data : Option α)
deriving DecidableEq

/-- The `maxRetries` constant (src/unnamed/part_000 line 83). -/
def maxRetries : Nat := 3

/-- Mutable locals of the retry loop of `fetchSubscriptionData`
(src/unnamed/part_000 lines 80-128), extended with an instrumentation trace:
how many times each table was queried and which backoff waits (in
milliseconds) were performed. -/
structure RetryState where
  subscriptionData : Option UserSubscription
  usageData : Option UserUsage
  retryCount : Nat
  subFetches : Nat
  usageFetches : Nat
  waits : List Nat
deriving DecidableEq

/-- Result of the retry loop: it either runs to completion (`done`) or throws
a fetch error out of the `try` block (`thrown`), carrying the loop locals at
that point. -/
inductive LoopResult where
  | done (st : RetryState)
  | thrown (st : RetryState)
deriving DecidableEq

/-- One subscription fetch step inside the loop (src/unnamed/part_000 lines
92-107): skipped when data is already present; an error object is rethrown
only on the last attempt (`retryCount === maxRetries - 1`).  Returns the
updated locals and whether the error was thrown. -/
def subStep (subO : Nat → FetchResult UserSubscription) (st : RetryState) :
    RetryState × Bool :=
  if st.subscriptionData.isNone then
    match subO st.retryCount with
    | .err =>
      ({ st with subFetches := st.subFetches + 1 }, st.retryCount == maxRetries - 1)
    | .ok d =>
      ({ st with subscriptionData := d, subFetches := st.subFetches + 1 }, false)
  else (st, false)

/-- One usage fetch step inside the loop (src/unnamed/part_000 lines
110-125), mirror image of `subStep`. -/
def usageStep (usageO : Nat → FetchResult UserUsage) (st : RetryState) :
    RetryState × Bool :=
  if st.usageData.isNone then
    match usageO st.retryCount with
    | .err =>
      ({ st with usageFetches := st.usageFetches + 1 }, st.retryCount == maxRetries - 1)
    | .ok d =>
      ({ st with usageData := d, usageFetches := st.usageFetches + 1 }, false)
  else (st, false)

/-- The retry loop `while (retryCount < maxRetries && (!subscriptionData ||
!usageData))` of src/unnamed/part_000 lines 85-128.  `fuel` stands for
`maxRetries - retryCount`, so the guard `retryCount < maxRetries` is fuel
exhaustion; the inner `setTimeout(..., 1000 * retryCount)` backoff is recorded
in the wait trace. -/
def retryLoop (subO : Nat → FetchResult UserSubscription)
    (usageO : Nat → FetchResult UserUsage) : Nat → RetryState → LoopResult
  | 0, st => .done st
  | fuel + 1, st =>
    if st.subscriptionData.isSome && st.usageData.isSome then .done st
    else
      let st1 : RetryState :=
        if 0 < st.retryCount then { st with waits := st.waits ++ [1000 * st.retryCount] }
        else st
      let p1 := subStep subO st1
      if p1.2 then .thrown p1.1
      else
        let p2 := usageStep usageO p1.1
        if p2.2 then .thrown p2.1
        else retryLoop subO usageO fuel { p2.1 with retryCount := p2.1.retryCount + 1 }

/-- Result of one whole pass of the retry-based `fetchSubscriptionData`
(src/unnamed/part_000 lines 59-204): final react state fields plus the
instrumentation trace.  `ensureCalls` counts the `ensure_user_records_robust`
RPC invocations (their result never influences control flow: a failure merely
logs a warning). -/
structure FetchOutcome where
  subscription : Option UserSubscription
  usage : Option UserUsage
  error : Option String
  loading : Bool
  subFetches : Nat
  usageFetches : Nat
  waits : List Nat
  ensureCalls : Nat
deriving DecidableEq

/-- The loop locals at entry (src/unnamed/part_000 lines 80-83). -/
def initialRetryState : RetryState :=
  { subscriptionData := none
    usageData := none
    retryCount := 0
    subFetches := 0
    usageFetches := 0
    waits := [] }

/-- Embedding of the retry-based `fetchSubscriptionData` of
src/unnamed/part_000 lines 59-204.  After the loop, missing records are
replaced by synthetic defaults with id `"default"` (lines 130-164); a fetch
error thrown on the last attempt is caught and replaced by defaults with id
`"error-default"` (lines 174-200); `finally` clears `loading` (line 202). -/
def fetchSubscriptionData0 (user : Option String)
    (subO : Nat → FetchResult UserSubscription)
    (usageO : Nat → FetchResult UserUsage) (now : Int) : FetchOutcome :=
  match user with
  | none =>
    { subscription := none, usage := none, error := none, loading := false
      subFetches := 0, usageFetches := 0, waits := [], ensureCalls := 0 }
  | some uid =>
    match retryLoop subO usageO maxRetries initialRetryState with
    | .thrown st =>
      { subscription := some (defaultSubscription "error-default" uid now)
        usage := some (defaultUsage "error-default" uid now)
        error := some "Failed to fetch subscription data"
        loading := false
        subFetches := st.subFetches
        usageFetches := st.usageFetches
        waits := st.waits
        ensureCalls := 1 }
    | .done st =>
      let missing := st.subscriptionData.isNone || st.usageData.isNone
      let subData : Option UserSubscription :=
        match st.subscriptionData with
        | some s => some s
        | none => some (defaultSubscription "default" uid now)
      let usageData : Option UserUsage :=
        match st.usageData with
        | some u => some u
        | none => some (defaultUsage "default" uid now)
      { subscription := subData
        usage := usageData
        error := none
        loading := false
        subFetches := st.subFetches
        usageFetches := st.usageFetches
        waits := st.waits
        ensureCalls := if missing then 2 else 1 }

example :
    (fetchSubscriptionData0 (some "u") (fun _ => .ok none) (fun _ => .ok none) 5).usage
      = some (defaultUsage "default" "u" 5) := by
  decide
example :
    (fetchSubscriptionData0 (some "u") (fun _ => .err) (fun _ => .err) 5).subscription
      = some (defaultSubscription "error-default" "u" 5) := by
  decide
example :
    (fetchSubscriptionData0 (some "u") (fun _ => .err) (fun _ => .err) 5).waits
      = [1000, 2000] := by
  decide

/-! ## SQL remote procedures
(src/supabase/migrations/20250629135115_throbbing_forest.sql)

Each table is modelled as a list of rows; `user_id` carries a unique index
(the inserts use `ON CONFLICT (user_id) DO NOTHING`), so a conditional append
models insertion.  Only the columns the procedures read or write are kept;
`id` (a fresh uuid) and the stripe id columns of `user_subscriptions` are
never consulted by these procedures and are omitted.  `now() + interval
'1 month'` is modelled as `now + thirtyDaysMs`, matching the client default.
The plpgsql `EXCEPTION` arms only translate runtime errors into warnings or a
`false` return; the embedding gives the error-free execution semantics. -/

/-- A row of `user_usage` (migration table, columns used by the procedures). -/
structure UsageRow where
  user_id : Nat
  prompts_used : Nat
  prompts_limit : Nat
  reset_date : Int
  created_at : Int
  updated_at : Int
deriving DecidableEq

/-- A row of `user_subscriptions` (columns used by the procedures). -/
structure SubscriptionRow where
  user_id : Nat
  plan_type : PlanType
  status : SubStatus
  created_at : Int
  updated_at : Int
deriving DecidableEq

/-- A row of `stripe_customers` (columns used by `update_usage_from_payment`). -/
structure StripeCustomerRow where
  user_id : Nat
  customer_id : String
  deleted_at : Option Int
deriving DecidableEq

/-- The repository state: the three tables the procedures touch. -/
structure Database where
  user_usage : List UsageRow
  user_subscriptions : List SubscriptionRow
  stripe_customers : List StripeCustomerRow
deriving DecidableEq

/-- `SELECT * INTO r FROM user_usage WHERE user_id = u`. -/
def findUsage (db : Database) (u : Nat) : Option UsageRow :=
  db.user_usage.find? (fun r => r.user_id == u)

/-- `SELECT * INTO r FROM user_subscriptions WHERE user_id = u`. -/
def findSubscription (db : Database) (u : Nat) : Option SubscriptionRow :=
  db.user_subscriptions.find? (fun r => r.user_id == u)

/-- `INSERT ... ON CONFLICT (user_id) DO NOTHING` on `user_usage`. -/
def insertUsageIfAbsent (row : UsageRow) (t : List UsageRow) : List UsageRow :=
  if t.any (fun r => r.user_id == row.user_id) then t else t ++ [row]

/-- `INSERT ... ON CONFLICT (user_id) DO NOTHING` on `user_subscriptions`. -/
def insertSubscriptionIfAbsent (row : SubscriptionRow) (t : List SubscriptionRow) :
    List SubscriptionRow :=
  if t.any (fun r => r.user_id == row.user_id) then t else t ++ [row]

/-- The default `user_usage` row inserted for a fresh identity (migration
lines 102-104): zero used, free-tier limit 3, reset one month out. -/
def defaultUsageRow (now : Int) (u : Nat) : UsageRow :=
  { user_id := u, prompts_used := 0, prompts_limit := 3
    reset_date := now + thirtyDaysMs, created_at := now, updated_at := now }

/-- The default `user_subscriptions` row inserted for a fresh identity
(migration lines 122-123): free plan, active. -/
def defaultSubscriptionRow (now : Int) (u : Nat) : SubscriptionRow :=
  { user_id := u, plan_type := .free, status := .active
    created_at := now, updated_at := now }

/-- The json object returned by `ensure_user_records_robust`
(migration lines 137-144). -/
structure EnsureResult where
  success : Bool
  usage_exists : Bool
  subscription_exists : Bool
  usage_created : Bool
  subscription_created : Bool
deriving DecidableEq

/-- Embedding of `ensure_user_records_robust(user_uuid)` (migration lines
87-155): for each of the two tables, look the row up, insert the free-tier
default when missing (usage: used 0, limit 3, reset one month out;
subscription: free/active), and report what exists afterwards. -/
def ensure_user_records_robust (now : Int) (user_uuid : Nat) (db : Database) :
    EnsureResult × Database :=
  let usage0 := findUsage db user_uuid
  let db1 : Database :=
    match usage0 with
    | none =>
      { db with user_usage :=
          insertUsageIfAbsent (defaultUsageRow now user_uuid) db.user_usage }
    | some _ => db
  let usage1 := findUsage db1 user_uuid
  let sub0 := findSubscription db1 user_uuid
  let db2 : Database :=
    match sub0 with
    | none =>
      { db1 with user_subscriptions :=
          insertSubscriptionIfAbsent (defaultSubscriptionRow now user_uuid) db1.user_subscriptions }
    | some _ => db1
  let sub1 := findSubscription db2 user_uuid
  ({ success := usage1.isSome && sub1.isSome
     usage_exists := usage1.isSome
     subscription_exists := sub1.isSome
     usage_created := true
     subscription_created := true }, db2)

/-- Embedding of `can_generate_prompt(user_uuid)` (migration lines 161-214):
ensure records, re-read them, then in order return `false` on a missing
record, `false` on a non-active subscription, `false` when `prompts_used >=
prompts_limit`, and only then — for a free plan whose `reset_date` has passed
— write the monthly reset before returning `true`. -/
def can_generate_prompt (now : Int) (user_uuid : Nat) (db : Database) :
    Bool × Database :=
  let db0 := (ensure_user_records_robust now user_uuid db).2
  match findUsage db0 user_uuid, findSubscription db0 user_uuid with
  | none, _ => (false, db0)
  | some _, none => (false, db0)
  | some usage_record, some subscription_record =>
    if subscription_record.status ≠ SubStatus.active then (false, db0)
    else if usage_record.prompts_limit ≤ usage_record.prompts_used then (false, db0)
    else
      let db1 : Database :=
        if subscription_record.plan_type = PlanType.free ∧ usage_record.reset_date < now then
          { db0 with user_usage := db0.user_usage.map (fun r =>
              if r.user_id == user_uuid then
                { r with prompts_used := 0, reset_date := now + thirtyDaysMs,
                         updated_at := now }
              else r) }
        else db0
      (true, db1)

/-- Stripe price id of the monthly plan (migration line 289). -/
def monthlyPriceId : String := "price_1RfHQ8RvFuWdm2ByorcAPrXa"

/-- Stripe price id of the yearly plan (migration line 292). -/
def yearlyPriceId : String := "price_1RfHR6RvFuWdm2By2DTIZEeu"

/-- Embedding of `update_usage_from_payment(customer_id, price_id)`
(migration lines 250-327): resolve the non-deleted stripe customer to a user,
ensure records, re-read them, map the price id to (additional prompts, plan),
then add the additional prompts to the current `prompts_limit` and mark the
subscription active on the new plan.  The join with `auth.users` only
re-checks existence of the user and is not modelled separately. -/
def update_usage_from_payment (now : Int) (customer_id_param price_id_param : String)
    (db : Database) : Bool × Database :=
  match db.stripe_customers.find?
      (fun c => c.customer_id == customer_id_param && c.deleted_at == none) with
  | none => (false, db)
  | some cust =>
    let uid := cust.user_id
    let db0 := (ensure_user_records_robust now uid db).2
    match findUsage db0 uid, findSubscription db0 uid with
    | none, _ => (false, db0)
    | some _, none => (false, db0)
    | some current_usage, some _ =>
      let plan : Option (Nat × PlanType) :=
        if price_id_param == monthlyPriceId then some (100, PlanType.monthly)
        else if price_id_param == yearlyPriceId then some (1500, PlanType.yearly)
        else none
      match plan with
      | none => (false, db0)
      | some (additional_prompts, plan_type_val) =>
        let new_limit := current_usage.prompts_limit + additional_prompts
        let db1 : Database :=
          { db0 with
              user_usage := db0.user_usage.map (fun r =>
                if r.user_id == uid then
                  { r with prompts_limit := new_limit, updated_at := now }
                else r)
              user_subscriptions := db0.user_subscriptions.map (fun r =>
                if r.user_id == uid then
                  { r with plan_type := plan_type_val, status := SubStatus.active,
                           updated_at := now }
                else r) }
        (true, db1)

example :
    (can_generate_prompt 0 1
      { user_usage := [], user_subscriptions := [], stripe_customers := [] }).1 = true := by
  decide

/-! ## Sample records used by witnesses and counterexamples -/

/-- A concrete usage record with one of two prompts used. -/
def uHalf : UserUsage :=
  { id := "u", user_id := "x", prompts_used := 1, prompts_limit := 2
    reset_date := 0, created_at := 0, updated_at := 0 }

/-- A concrete usage record with a zero limit. -/
def uZeroLimit : UserUsage :=
  { id := "u", user_id := "x", prompts_used := 0, prompts_limit := 0
    reset_date := 0, created_at := 0, updated_at := 0 }

/-- Hook state with a reconciliation pass in flight. -/
def busyState : HookState :=
  { subscription := none, usage := none, loading := true, error := none, fetching := true }

/-- Hook state with no reconciliation pass in flight. -/
def idleState : HookState :=
  { subscription := none, usage := none, loading := true, error := none, fetching := false }

/-- A concrete remote oracle for witnesses. -/
def sampleOracle : FetchOracle :=
  { setup := .ok (), subscriptionResponse := .errorResult, usageResponse := .errorResult }

/-! ## Claims about the usage mutator -/

/-- C7: whenever the remote increment call errors (error object or thrown
exception), `incrementUsage` returns `false` and the locally cached usage
record is unchanged. -/
theorem incrementUsage_fail_closed (user : Option String) (rpc : RpcOutcome Bool)
    (now : Int) (usage : Option UserUsage)
    (h : rpc = RpcOutcome.thrown ∨ rpc = RpcOutcome.errorResult) :
    incrementUsage user rpc now usage = (false, usage) := by
  rcases h with h | h <;> subst h <;> cases user <;> rfl

/-- Witness for C7 at a concrete erroring call. -/
theorem incrementUsage_fail_closed_witness :
    incrementUsage (some "x") RpcOutcome.errorResult 7 (some uHalf) = (false, some uHalf) :=
  incrementUsage_fail_closed (some "x") RpcOutcome.errorResult 7 (some uHalf) (Or.inr rfl)

/-- C10: when the remote increment call completes without an error object,
the cached `prompts_used` is bumped by exactly one (when a cached record
exists) and the RPC boolean is returned unchanged — including when it is
`false`. -/
theorem incrementUsage_optimistic (uid : String) (b : Bool) (now : Int) (u : UserUsage) :
    incrementUsage (some uid) (RpcOutcome.ok b) now (some u)
        = (b, some { u with prompts_used := u.prompts_used + 1, updated_at := now }) ∧
      incrementUsage (some uid) (RpcOutcome.ok b) now none = (b, none) :=
  ⟨rfl, rfl⟩

/-! ## Claims about the reconciler's in-flight coalescing -/

/-- C5: a `fetchSubscriptionData` call arriving while a pass is in flight
returns at once, mutating no state and issuing no remote call; and whenever a
pass does run, the in-flight flag is clear again on every completion path. -/
theorem fetchSubscriptionData_coalesces (uid : String) (o : FetchOracle)
    (now : Int) (s : HookState) :
    (s.fetching = true → fetchSubscriptionData (some uid) o now s = (s, [])) ∧
      (s.fetching = false →
        (fetchSubscriptionData (some uid) o now s).1.fetching = false) := by
  constructor
  · intro h
    simp [fetchSubscriptionData, h]
  · intro h
    rcases o with ⟨setup, subr, usager⟩
    cases setup <;> cases subr <;> cases usager <;>
      simp [fetchSubscriptionData, h]

/-- Witness for C5: a concrete busy state is left untouched with no calls,
and a concrete completed pass ends with the flag cleared. -/
theorem fetchSubscriptionData_coalesces_witness :
    fetchSubscriptionData (some "x") sampleOracle 0 busyState = (busyState, []) ∧
      (fetchSubscriptionData (some "x") sampleOracle 0 idleState).1.fetching = false :=
  ⟨(fetchSubscriptionData_coalesces "x" sampleOracle 0 busyState).1 rfl,
   (fetchSubscriptionData_coalesces "x" sampleOracle 0 idleState).2 rfl⟩

/-! ## Claims about the usage percentage -/

/-- C9 counterexample: `getUsagePercentage` does not return the fraction
used/limit in [0,1]; at one of two prompts used it returns 50, not 1/2. -/
theorem getUsagePercentage_not_a_fraction :
    ¬ (getUsagePercentage (some uHalf)
          = (uHalf.prompts_used : ℚ) / (uHalf.prompts_limit : ℚ) ∧
        getUsagePercentage (some uHalf) ≤ 1) := by
  norm_num [getUsagePercentage, uHalf, min_def]

/-- C9 (amended): for every Usage record, `getUsagePercentage` returns
`min 100 (used/limit * 100)`, a percentage lying in [0,100], and returns 0
when the limit is 0 (no division by zero). -/
theorem getUsagePercentage_range (u : UserUsage) :
    0 ≤ getUsagePercentage (some u) ∧ getUsagePercentage (some u) ≤ 100 ∧
      (u.prompts_limit = 0 → getUsagePercentage (some u) = 0) ∧
      (u.prompts_limit ≠ 0 →
        getUsagePercentage (some u)
          = min 100 ((u.prompts_used : ℚ) / (u.prompts_limit : ℚ) * 100)) := by
  by_cases hl : u.prompts_limit = 0
  · refine ⟨?_, ?_, fun _ => ?_, fun hne => absurd hl hne⟩
    · simp [getUsagePercentage, hl]
    · simp [getUsagePercentage, hl]
    · simp [getUsagePercentage, hl]
  · have hx : (0 : ℚ) ≤ (u.prompts_used : ℚ) / (u.prompts_limit : ℚ) * 100 := by
      positivity
    refine ⟨?_, ?_, fun h0 => absurd h0 hl, fun _ => ?_⟩
    · have h100 : (0 : ℚ) ≤ 100 := by norm_num
      simpa [getUsagePercentage, hl] using le_min h100 hx
    · simp [getUsagePercentage, hl]
    · simp [getUsagePercentage, hl]

/-- Witness for C9 (amended): at a zero-limit record the bounds hold and the
result is 0. -/
theorem getUsagePercentage_range_witness :
    0 ≤ getUsagePercentage (some uZeroLimit) ∧
      getUsagePercentage (some uZeroLimit) ≤ 100 ∧
      getUsagePercentage (some uZeroLimit) = 0 :=
  ⟨(getUsagePercentage_range uZeroLimit).1,
   (getUsagePercentage_range uZeroLimit).2.1,
   (getUsagePercentage_range uZeroLimit).2.2.1 rfl⟩

/-! ## Helper lemmas about the repository model -/

/-- When no row for the key is present, `ON CONFLICT DO NOTHING` appends. -/
theorem insertUsageIfAbsent_of_not_found (row : UsageRow) (t : List UsageRow)
    (h : t.find? (fun r => r.user_id == row.user_id) = none) :
    insertUsageIfAbsent row t = t ++ [row] := by
  unfold insertUsageIfAbsent
  rw [if_neg]
  intro hany
  rcases List.any_eq_true.mp hany with ⟨x, hx, hpx⟩
  exact (List.find?_eq_none.mp h x hx) hpx

/-- When no row for the key is present, `ON CONFLICT DO NOTHING` appends. -/
theorem insertSubscriptionIfAbsent_of_not_found (row : SubscriptionRow)
    (t : List SubscriptionRow)
    (h : t.find? (fun r => r.user_id == row.user_id) = none) :
    insertSubscriptionIfAbsent row t = t ++ [row] := by
  unfold insertSubscriptionIfAbsent
  rw [if_neg]
  intro hany
  rcases List.any_eq_true.mp hany with ⟨x, hx, hpx⟩
  exact (List.find?_eq_none.mp h x hx) hpx

/-- `ensure_user_records_robust` is the identity on the repository when both
records already exist. -/
theorem ensure_noop (now : Int) (u : Nat) (db : Database)
    (ur : UsageRow) (sr : SubscriptionRow)
    (hu : findUsage db u = some ur) (hs : findSubscription db u = some sr) :
    (ensure_user_records_robust now u db).2 = db := by
  simp [ensure_user_records_robust, hu, hs]

/-! ## Claims about the metered-action gate -/

/-- C1: on a repository where both records exist, `can_generate_prompt`
returns true iff the subscription is active and `prompts_used <
prompts_limit`. -/
theorem can_generate_prompt_gate (now : Int) (u : Nat) (db : Database)
    (ur : UsageRow) (sr : SubscriptionRow)
    (hu : findUsage db u = some ur) (hs : findSubscription db u = some sr) :
    ((can_generate_prompt now u db).1 = true ↔
      (sr.status = SubStatus.active ∧ ur.prompts_used < ur.prompts_limit)) := by
  have hnoop := ensure_noop now u db ur sr hu hs
  by_cases h1 : sr.status = SubStatus.active
  · by_cases h2 : ur.prompts_limit ≤ ur.prompts_used
    · simp [can_generate_prompt, hnoop, hu, hs, h1, h2]
    · simp [can_generate_prompt, hnoop, hu, hs, h1, h2]
      omega
  · simp [can_generate_prompt, hnoop, hu, hs, h1]

/-- The repository of the C1 witness: a user with `prompts_used = 0` and
`prompts_limit = 0` on an active free plan. -/
def dbZeroLimit : Database :=
  { user_usage := [{ user_id := 1, prompts_used := 0, prompts_limit := 0
                     reset_date := 0, created_at := 0, updated_at := 0 }]
    user_subscriptions := [{ user_id := 1, plan_type := .free, status := .active
                             created_at := 0, updated_at := 0 }]
    stripe_customers := [] }

/-- Witness for C1 at the pair used = 0, limit = 0: the gate denies. -/
theorem can_generate_prompt_gate_witness :
    (can_generate_prompt 5 1 dbZeroLimit).1 = false :=
  by
    have h := can_generate_prompt_gate 5 1 dbZeroLimit
      { user_id := 1, prompts_used := 0, prompts_limit := 0
        reset_date := 0, created_at := 0, updated_at := 0 }
      { user_id := 1, plan_type := .free, status := .active
        created_at := 0, updated_at := 0 }
      (by decide) (by decide)
    simp at h
    exact h

/-- The repository of the C2 failing input: a free-tier user who exhausted
the limit (3 of 3) and whose `reset_date` (0) lies before `now` (1000). -/
def dbExhausted : Database :=
  { user_usage := [{ user_id := 1, prompts_used := 3, prompts_limit := 3
                     reset_date := 0, created_at := 0, updated_at := 0 }]
    user_subscriptions := [{ user_id := 1, plan_type := .free, status := .active
                             created_at := 0, updated_at := 0 }]
    stripe_customers := [] }

/-- C2 (code bug evidence): for an exhausted free-tier user whose reset date
has passed, `can_generate_prompt` returns `false` and leaves the repository
unchanged — the `prompts_used >= prompts_limit` early return precedes the
monthly-reset branch, so the reset the spec requires never happens. -/
theorem can_generate_prompt_skips_reset_when_exhausted :
    can_generate_prompt 1000 1 dbExhausted = (false, dbExhausted) := by
  decide

/-! ## Claim about webhook-driven settlement -/

/-- The repository of the C8 failing input: one user, one live stripe
customer, fresh free-tier records (limit 3). -/
def dbPayment : Database :=
  { user_usage := [{ user_id := 7, prompts_used := 0, prompts_limit := 3
                     reset_date := 0, created_at := 0, updated_at := 0 }]
    user_subscriptions := [{ user_id := 7, plan_type := .free, status := .active
                             created_at := 0, updated_at := 0 }]
    stripe_customers := [{ user_id := 7, customer_id := "cus_test", deleted_at := none }] }

/-- C8 (code bug evidence): settling the same monthly payment event once
yields `prompts_limit = 103`, settling it twice yields `203` —
`update_usage_from_payment` adds the plan's prompts to the current limit on
every call, so re-processing the same event double-grants entitlement. -/
theorem update_usage_from_payment_double_grants :
    ((update_usage_from_payment 0 "cus_test" monthlyPriceId dbPayment).2.user_usage.find?
        (fun r => r.user_id == 7)).map (fun r => r.prompts_limit) = some 103 ∧
      ((update_usage_from_payment 0 "cus_test" monthlyPriceId
          (update_usage_from_payment 0 "cus_test" monthlyPriceId dbPayment).2).2.user_usage.find?
        (fun r => r.user_id == 7)).map (fun r => r.prompts_limit) = some 203 := by
  decide

/-! ## Claim about the idempotence of record repair -/

/-- A list on which `find?` fails also has no match for `any`. -/
theorem any_eq_false_of_find?_eq_none {α : Type} (p : α → Bool) (l : List α)
    (h : l.find? p = none) : l.any p = false := by
  rw [Bool.eq_false_iff]
  intro hany
  rcases List.any_eq_true.mp hany with ⟨x, hx, hpx⟩
  exact (List.find?_eq_none.mp h x hx) hpx

/-- Appending a matching element to a matchless list makes `find?` hit it. -/
theorem find?_append_singleton {α : Type} (p : α → Bool) (l : List α) (r : α)
    (h : l.find? p = none) (hr : p r = true) : (l ++ [r]).find? p = some r := by
  simp [List.find?_append, h, hr]

/-- A list on which `find?` fails filters to the empty list. -/
theorem filter_nil_of_find?_eq_none {α : Type} (p : α → Bool) (l : List α)
    (h : l.find? p = none) : l.filter p = [] :=
  List.filter_eq_nil_iff.mpr (List.find?_eq_none.mp h)

/-- A successful `find?` on a duplicate-free-for-the-key list pins the filter
length to exactly one. -/
theorem length_filter_eq_one_of_find?_some {α : Type} (p : α → Bool) (l : List α)
    (r : α) (hf : l.find? p = some r) (hle : (l.filter p).length ≤ 1) :
    (l.filter p).length = 1 := by
  have hr : r ∈ l.filter p :=
    List.mem_filter.mpr ⟨List.mem_of_find?_eq_some hf, List.find?_some hf⟩
  have hpos : 0 < (l.filter p).length :=
    List.length_pos.mpr (List.ne_nil_of_mem hr)
  omega

/-- Replacing the usage table leaves subscription lookups unchanged. -/
theorem findSubscription_set_usage (db : Database) (l : List UsageRow) (u : Nat) :
    findSubscription { db with user_usage := l } u = findSubscription db u := rfl

/-- Lookup after replacing the usage table reads the new table. -/
theorem findUsage_set (db : Database) (l : List UsageRow) (u : Nat) :
    findUsage { db with user_usage := l } u = l.find? (fun r => r.user_id == u) := rfl

/-- Lookup after replacing the subscriptions table reads the new table. -/
theorem findSubscription_set (db : Database) (l : List SubscriptionRow) (u : Nat) :
    findSubscription { db with user_subscriptions := l } u
      = l.find? (fun r => r.user_id == u) := rfl

/-- C6: `ensure_user_records_robust` is idempotent — a second call (at any
later time) leaves the repository exactly as the first call left it — and
after one call the repository holds exactly one usage row and one
subscription row for the identity, never duplicates. -/
theorem ensure_user_records_robust_idempotent (u : Nat) (now1 now2 : Int) (db : Database)
    (hcu : (db.user_usage.filter (fun r => r.user_id == u)).length ≤ 1)
    (hcs : (db.user_subscriptions.filter (fun r => r.user_id == u)).length ≤ 1) :
    (ensure_user_records_robust now2 u (ensure_user_records_robust now1 u db).2).2
        = (ensure_user_records_robust now1 u db).2 ∧
      ((ensure_user_records_robust now1 u db).2.user_usage.filter
          (fun r => r.user_id == u)).length = 1 ∧
      ((ensure_user_records_robust now1 u db).2.user_subscriptions.filter
          (fun r => r.user_id == u)).length = 1 := by
  have hpu : ((defaultUsageRow now1 u).user_id == u) = true := by
    simp [defaultUsageRow]
  have hps : ((defaultSubscriptionRow now1 u).user_id == u) = true := by
    simp [defaultSubscriptionRow]
  cases hu0 : findUsage db u with
  | some r =>
    cases hs0 : findSubscription db u with
    | some s =>
      have e1 : (ensure_user_records_robust now1 u db).2 = db :=
        ensure_noop now1 u db r s hu0 hs0
      rw [e1]
      exact ⟨ensure_noop now2 u db r s hu0 hs0,
        length_filter_eq_one_of_find?_some _ _ r hu0 hcu,
        length_filter_eq_one_of_find?_some _ _ s hs0 hcs⟩
    | none =>
      have hs0' : db.user_subscriptions.find? (fun r => r.user_id == u) = none := hs0
      have ei : insertSubscriptionIfAbsent (defaultSubscriptionRow now1 u) db.user_subscriptions
          = db.user_subscriptions ++ [defaultSubscriptionRow now1 u] :=
        insertSubscriptionIfAbsent_of_not_found _ _ hs0'
      have e1 : (ensure_user_records_robust now1 u db).2
          = { db with user_subscriptions :=
                db.user_subscriptions ++ [defaultSubscriptionRow now1 u] } := by
        simp [ensure_user_records_robust, hu0, hs0, ei]
      have f1 : findUsage { db with user_subscriptions :=
            db.user_subscriptions ++ [defaultSubscriptionRow now1 u] } u = some r := hu0
      have f2 : findSubscription { db with user_subscriptions :=
            db.user_subscriptions ++ [defaultSubscriptionRow now1 u] } u
          = some (defaultSubscriptionRow now1 u) := by
        rw [findSubscription_set]
        exact find?_append_singleton _ _ _ hs0' hps
      rw [e1]
      refine ⟨ensure_noop now2 u _ r _ f1 f2, ?_, ?_⟩
      · exact length_filter_eq_one_of_find?_some _ _ r hu0 hcu
      · show ((db.user_subscriptions ++ [defaultSubscriptionRow now1 u]).filter
            (fun r => r.user_id == u)).length = 1
        rw [List.filter_append, filter_nil_of_find?_eq_none _ _ hs0']
        simp [hps]
  | none =>
    have hu0' : db.user_usage.find? (fun r => r.user_id == u) = none := hu0
    have eiu : insertUsageIfAbsent (defaultUsageRow now1 u) db.user_usage
        = db.user_usage ++ [defaultUsageRow now1 u] :=
      insertUsageIfAbsent_of_not_found _ _ hu0'
    cases hs0 : findSubscription db u with
    | some s =>
      have e1 : (ensure_user_records_robust now1 u db).2
          = { db with user_usage := db.user_usage ++ [defaultUsageRow now1 u] } := by
        simp [ensure_user_records_robust, hu0, hs0, eiu, findSubscription_set_usage]
      have f1 : findUsage { db with user_usage :=
            db.user_usage ++ [defaultUsageRow now1 u] } u = some (defaultUsageRow now1 u) := by
        rw [findUsage_set]
        exact find?_append_singleton _ _ _ hu0' hpu
      have f2 : findSubscription { db with user_usage :=
            db.user_usage ++ [defaultUsageRow now1 u] } u = some s := hs0
      rw [e1]
      refine ⟨ensure_noop now2 u _ _ s f1 f2, ?_, ?_⟩
      · show ((db.user_usage ++ [defaultUsageRow now1 u]).filter
            (fun r => r.user_id == u)).length = 1
        rw [List.filter_append, filter_nil_of_find?_eq_none _ _ hu0']
        simp [hpu]
      · exact length_filter_eq_one_of_find?_some _ _ s hs0 hcs
    | none =>
      have hs0' : db.user_subscriptions.find? (fun r => r.user_id == u) = none := hs0
      have eis : insertSubscriptionIfAbsent (defaultSubscriptionRow now1 u) db.user_subscriptions
          = db.user_subscriptions ++ [defaultSubscriptionRow now1 u] :=
        insertSubscriptionIfAbsent_of_not_found _ _ hs0'
      have e1 : (ensure_user_records_robust now1 u db).2
          = { db with
                user_usage := db.user_usage ++ [defaultUsageRow now1 u]
                user_subscriptions :=
                  db.user_subscriptions ++ [defaultSubscriptionRow now1 u] } := by
        simp [ensure_user_records_robust, hu0, hs0, eiu, eis, findSubscription_set_usage]
      have f1 : findUsage { db with
            user_usage := db.user_usage ++ [defaultUsageRow now1 u]
            user_subscriptions := db.user_subscriptions ++ [defaultSubscriptionRow now1 u] } u
          = some (defaultUsageRow now1 u) :=
        find?_append_singleton _ _ _ hu0' hpu
      have f2 : findSubscription { db with
            user_usage := db.user_usage ++ [defaultUsageRow now1 u]
            user_subscriptions := db.user_subscriptions ++ [defaultSubscriptionRow now1 u] } u
          = some (defaultSubscriptionRow now1 u) :=
        find?_append_singleton _ _ _ hs0' hps
      rw [e1]
      refine ⟨ensure_noop now2 u _ _ _ f1 f2, ?_, ?_⟩
      · show ((db.user_usage ++ [defaultUsageRow now1 u]).filter
            (fun r => r.user_id == u)).length = 1
        rw [List.filter_append, filter_nil_of_find?_eq_none _ _ hu0']
        simp [hpu]
      · show ((db.user_subscriptions ++ [defaultSubscriptionRow now1 u]).filter
            (fun r => r.user_id == u)).length = 1
        rw [List.filter_append, filter_nil_of_find?_eq_none _ _ hs0']
        simp [hps]

/-- Witness for C6: starting from the empty repository, the second call is a
no-op and exactly one row per table exists for the identity. -/
theorem ensure_user_records_robust_idempotent_witness :
    (ensure_user_records_robust 9 4
        (ensure_user_records_robust 2 4
          { user_usage := [], user_subscriptions := [], stripe_customers := [] }).2).2
        = (ensure_user_records_robust 2 4
            { user_usage := [], user_subscriptions := [], stripe_customers := [] }).2 ∧
      ((ensure_user_records_robust 2 4
          { user_usage := [], user_subscriptions := [], stripe_customers := [] }).2.user_usage.filter
          (fun r => r.user_id == 4)).length = 1 ∧
      ((ensure_user_records_robust 2 4
          { user_usage := [], user_subscriptions := [], stripe_customers := [] }).2.user_subscriptions.filter
          (fun r => r.user_id == 4)).length = 1 :=
  ensure_user_records_robust_idempotent 4 2 9
    { user_usage := [], user_subscriptions := [], stripe_customers := [] }
    (by decide) (by decide)

/-! ## Claims about the retry-based reconciler -/

/-- The loop state a `LoopResult` carries. -/
def LoopResult.state : LoopResult → RetryState
  | .done st => st
  | .thrown st => st

/-- The backoff waits performed before entering the iteration with the given
`retryCount`: nothing before attempts 0 and 1 has completed a backoff of its
own index times one second. -/
def waitsFor : Nat → List Nat
  | 0 => []
  | 1 => []
  | 2 => [1000]
  | _ + 3 => [1000, 2000]

/-- The wait trace is always one of the three prefixes of `[1000, 2000]`. -/
theorem waitsFor_cases (r : Nat) :
    waitsFor r = [] ∨ waitsFor r = [1000] ∨ waitsFor r = [1000, 2000] := by
  match r with
  | 0 => exact Or.inl rfl
  | 1 => exact Or.inl rfl
  | 2 => exact Or.inr (Or.inl rfl)
  | n + 3 => exact Or.inr (Or.inr rfl)

/-- Performing the backoff of iteration `r` advances the wait trace. -/
theorem waitsFor_succ (r : Nat) (h : r ≤ 2) :
    (if 0 < r then waitsFor r ++ [1000 * r] else waitsFor r) = waitsFor (r + 1) := by
  interval_cases r <;> simp [waitsFor]

/-- `subStep` queries the subscription table at most once and touches no
other trace field. -/
theorem subStep_char (subO : Nat → FetchResult UserSubscription) (st : RetryState) :
    (subStep subO st).1.subFetches ≤ st.subFetches + 1 ∧
      (subStep subO st).1.usageFetches = st.usageFetches ∧
      (subStep subO st).1.waits = st.waits ∧
      (subStep subO st).1.retryCount = st.retryCount := by
  unfold subStep
  split
  · cases subO st.retryCount <;> simp
  · simp

/-- `usageStep` queries the usage table at most once and touches no other
trace field. -/
theorem usageStep_char (usageO : Nat → FetchResult UserUsage) (st : RetryState) :
    (usageStep usageO st).1.usageFetches ≤ st.usageFetches + 1 ∧
      (usageStep usageO st).1.subFetches = st.subFetches ∧
      (usageStep usageO st).1.waits = st.waits ∧
      (usageStep usageO st).1.retryCount = st.retryCount := by
  unfold usageStep
  split
  · cases usageO st.retryCount <;> simp
  · simp

/-- Trace invariant of the retry loop: however the oracles answer, each table
is queried at most once per remaining iteration and the wait trace stays a
prefix of `[1000, 2000]`. -/
theorem retryLoop_trace (subO : Nat → FetchResult UserSubscription)
    (usageO : Nat → FetchResult UserUsage) :
    ∀ (fuel : Nat) (st : RetryState),
      st.waits = waitsFor st.retryCount →
      st.retryCount + fuel ≤ 3 →
      ((retryLoop subO usageO fuel st).state.subFetches ≤ st.subFetches + fuel ∧
        (retryLoop subO usageO fuel st).state.usageFetches ≤ st.usageFetches + fuel ∧
        ((retryLoop subO usageO fuel st).state.waits = [] ∨
          (retryLoop subO usageO fuel st).state.waits = [1000] ∨
          (retryLoop subO usageO fuel st).state.waits = [1000, 2000])) := by
  intro fuel
  induction fuel with
  | zero =>
    intro st hw _
    refine ⟨Nat.le_refl _, Nat.le_refl _, ?_⟩
    rw [show (retryLoop subO usageO 0 st).state = st from rfl, hw]
    exact waitsFor_cases st.retryCount
  | succ fuel ih =>
    intro st hw hrc
    rw [retryLoop]
    split
    · refine ⟨Nat.le_add_right _ _, Nat.le_add_right _ _, ?_⟩
      rw [show (LoopResult.done st).state = st from rfl, hw]
      exact waitsFor_cases st.retryCount
    · dsimp only []
      have hrc2 : st.retryCount ≤ 2 := by omega
      set st1 : RetryState :=
        if 0 < st.retryCount then { st with waits := st.waits ++ [1000 * st.retryCount] }
        else st with hst1
      have hst1w : st1.waits = waitsFor (st.retryCount + 1) := by
        rw [hst1, ← waitsFor_succ st.retryCount hrc2]
        split <;> simp [hw]
      have hst1rc : st1.retryCount = st.retryCount := by
        rw [hst1]; split <;> rfl
      have hst1sf : st1.subFetches = st.subFetches := by
        rw [hst1]; split <;> rfl
      have hst1uf : st1.usageFetches = st.usageFetches := by
        rw [hst1]; split <;> rfl
      have hp1 := subStep_char subO st1
      split
      · rename_i hthrow
        refine ⟨?_, ?_, ?_⟩
        · show (subStep subO st1).1.subFetches ≤ st.subFetches + (fuel + 1)
          omega
        · show (subStep subO st1).1.usageFetches ≤ st.usageFetches + (fuel + 1)
          omega
        · show ((subStep subO st1).1.waits = [] ∨ (subStep subO st1).1.waits = [1000] ∨
            (subStep subO st1).1.waits = [1000, 2000])
          rw [hp1.2.2.1, hst1w]
          exact waitsFor_cases _
      · have hp2 := usageStep_char usageO (subStep subO st1).1
        split
        · refine ⟨?_, ?_, ?_⟩
          · show (usageStep usageO (subStep subO st1).1).1.subFetches
              ≤ st.subFetches + (fuel + 1)
            omega
          · show (usageStep usageO (subStep subO st1).1).1.usageFetches
              ≤ st.usageFetches + (fuel + 1)
            omega
          · show ((usageStep usageO (subStep subO st1).1).1.waits = [] ∨
              (usageStep usageO (subStep subO st1).1).1.waits = [1000] ∨
              (usageStep usageO (subStep subO st1).1).1.waits = [1000, 2000])
            rw [hp2.2.2.1, hp1.2.2.1, hst1w]
            exact waitsFor_cases _
        · set st3 : RetryState :=
            { (usageStep usageO (subStep subO st1).1).1 with
                retryCount := (usageStep usageO (subStep subO st1).1).1.retryCount + 1 }
            with hst3
          have hst3rc : st3.retryCount = st.retryCount + 1 := by
            rw [hst3]
            simp [hp2.2.2.2, hp1.2.2.2, hst1rc]
          have hst3w : st3.waits = waitsFor st3.retryCount := by
            rw [hst3]
            simp only []
            rw [hp2.2.2.1, hp1.2.2.1, hst1w, hp2.2.2.2, hp1.2.2.2, hst1rc]
          have := ih st3 hst3w (by omega)
          refine ⟨?_, ?_, this.2.2⟩
          · have h3 : st3.subFetches ≤ st.subFetches + 1 := by
              rw [hst3]; simp only []; omega
            omega
          · have h3 : st3.usageFetches ≤ st.usageFetches + 1 := by
              rw [hst3]; simp only []; omega
            omega

/-- C3: when the repository yields no real records — every attempt returns no
row, or every attempt errors — the retry-based reconciler terminates with a
non-null synthetic entitlement (free plan, active, 0 of 3 prompts used, reset
thirty days out) and the error is absorbed: the pass resolves normally with
`loading` cleared rather than propagating a repository error. -/
theorem fetchSubscriptionData0_defaults (uid : String)
    (subO : Nat → FetchResult UserSubscription) (usageO : Nat → FetchResult UserUsage)
    (now : Int)
    (h : ((∀ i, subO i = FetchResult.ok none) ∧ (∀ i, usageO i = FetchResult.ok none)) ∨
      ((∀ i, subO i = FetchResult.err) ∧ (∀ i, usageO i = FetchResult.err))) :
    (fetchSubscriptionData0 (some uid) subO usageO now).subscription.map
        (fun s => (s.plan_type, s.status, s.user_id))
        = some (PlanType.free, SubStatus.active, uid) ∧
      (fetchSubscriptionData0 (some uid) subO usageO now).usage.map
        (fun r => (r.prompts_used, r.prompts_limit, r.reset_date, r.user_id))
        = some (0, 3, now + thirtyDaysMs, uid) ∧
      (fetchSubscriptionData0 (some uid) subO usageO now).loading = false := by
  rcases h with ⟨hs, hu⟩ | ⟨hs, hu⟩ <;>
    simp [fetchSubscriptionData0, retryLoop, subStep, usageStep, initialRetryState,
      maxRetries, hs 0, hs 1, hs 2, hu 0, hu 1, hu 2, defaultSubscription, defaultUsage]

/-- Witness for C3: a repository with no rows at all yields the synthetic
free-tier entitlement. -/
theorem fetchSubscriptionData0_defaults_witness :
    (fetchSubscriptionData0 (some "w") (fun _ => FetchResult.ok none)
        (fun _ => FetchResult.ok none) 5).subscription.map
        (fun s => (s.plan_type, s.status, s.user_id))
        = some (PlanType.free, SubStatus.active, "w") ∧
      (fetchSubscriptionData0 (some "w") (fun _ => FetchResult.ok none)
        (fun _ => FetchResult.ok none) 5).usage.map
        (fun r => (r.prompts_used, r.prompts_limit, r.reset_date, r.user_id))
        = some (0, 3, 5 + thirtyDaysMs, "w") ∧
      (fetchSubscriptionData0 (some "w") (fun _ => FetchResult.ok none)
        (fun _ => FetchResult.ok none) 5).loading = false :=
  fetchSubscriptionData0_defaults "w" (fun _ => FetchResult.ok none)
    (fun _ => FetchResult.ok none) 5 (Or.inl ⟨fun _ => rfl, fun _ => rfl⟩)

/-- C4: the retry-based reconciler queries each table at most three times,
its backoff waits are 1000·i milliseconds before retry i (none before the
first attempt, so the trace is a prefix of [1000, 2000]); and when both
fetches error on the first two attempts and return rows on the third, the
pass ends with the real fetched records and no error, not the synthetic
defaults. -/
theorem fetchSubscriptionData0_retry_policy (uid : String)
    (subO : Nat → FetchResult UserSubscription) (usageO : Nat → FetchResult UserUsage)
    (now : Int) (srow : UserSubscription) (urow : UserUsage) :
    ((fetchSubscriptionData0 (some uid) subO usageO now).subFetches ≤ 3 ∧
      (fetchSubscriptionData0 (some uid) subO usageO now).usageFetches ≤ 3 ∧
      ((fetchSubscriptionData0 (some uid) subO usageO now).waits = [] ∨
        (fetchSubscriptionData0 (some uid) subO usageO now).waits = [1000] ∨
        (fetchSubscriptionData0 (some uid) subO usageO now).waits = [1000, 2000])) ∧
      ((subO 0 = FetchResult.err ∧ subO 1 = FetchResult.err ∧
          subO 2 = FetchResult.ok (some srow) ∧
          usageO 0 = FetchResult.err ∧ usageO 1 = FetchResult.err ∧
          usageO 2 = FetchResult.ok (some urow)) →
        (fetchSubscriptionData0 (some uid) subO usageO now).subscription = some srow ∧
          (fetchSubscriptionData0 (some uid) subO usageO now).usage = some urow ∧
          (fetchSubscriptionData0 (some uid) subO usageO now).error = none) := by
  constructor
  · have htr := retryLoop_trace subO usageO 3 initialRetryState rfl (by decide)
    cases hr : retryLoop subO usageO 3 initialRetryState with
    | done st =>
      rw [hr] at htr
      simp only [LoopResult.state, initialRetryState] at htr
      obtain ⟨ht1, ht2, ht3⟩ := htr
      simp only [fetchSubscriptionData0, maxRetries, hr]
      refine ⟨by omega, by omega, ht3⟩
    | thrown st =>
      rw [hr] at htr
      simp only [LoopResult.state, initialRetryState] at htr
      obtain ⟨ht1, ht2, ht3⟩ := htr
      simp only [fetchSubscriptionData0, maxRetries, hr]
      refine ⟨by omega, by omega, ht3⟩
  · rintro ⟨h0, h1, h2, h3, h4, h5⟩
    simp [fetchSubscriptionData0, retryLoop, subStep, usageStep, initialRetryState,
      maxRetries, h0, h1, h2, h3, h4, h5]

/-- Subscription oracle of the C4 witness scenario: errors on the first two
attempts, a real row on the third. -/
def scenarioSub : Nat → FetchResult UserSubscription := fun i =>
  if i < 2 then .err else .ok (some (defaultSubscription "real" "w" 1))

/-- Usage oracle of the C4 witness scenario: errors on the first two
attempts, a real row on the third. -/
def scenarioUsage : Nat → FetchResult UserUsage := fun i =>
  if i < 2 then .err else .ok (some uHalf)

/-- Witness for C4: under the fail-fail-succeed scenario the pass ends with
the real fetched records and no error. -/
theorem fetchSubscriptionData0_retry_policy_witness :
    (fetchSubscriptionData0 (some "w") scenarioSub scenarioUsage 9).subscription
        = some (defaultSubscription "real" "w" 1) ∧
      (fetchSubscriptionData0 (some "w") scenarioSub scenarioUsage 9).usage = some uHalf ∧
      (fetchSubscriptionData0 (some "w") scenarioSub scenarioUsage 9).error = none :=
  (fetchSubscriptionData0_retry_policy "w" scenarioSub scenarioUsage 9
      (defaultSubscription "real" "w" 1) uHalf).2
    ⟨rfl, rfl, rfl, rfl, rfl, rfl⟩
